import Mathlib

/-!
# Verification of the apm-server `modelindexer` bulk indexing pipeline

A shallow embedding of the bulk indexing pipeline described in the repository
specification (encoder, bulk buffer accounting, active indexer pool,
scaling controller, stats registry, log limiter), with theorems settling the
frozen claims about it.  The `modelindexer` implementation itself is not
among the provided source files — only its test suite is — so the
definitions below are modelled from the specification, with the test suite
pinning the concrete values (stats snapshots, error message formats,
expected documents).
-/

set_option autoImplicit false

namespace ModelIndexer

/-! ## Timestamp formatting

Modelled from the spec: the encoder "Formats the `@timestamp` field as UTC
with millisecond truncation"; `@timestamp` is RFC3339 with millisecond
precision.  Timestamps are nanoseconds since the Unix epoch. -/

/-- Modelled from the spec: civil date from a count of days since 1970-01-01
(proleptic Gregorian calendar), as used to render a UTC timestamp.
Returns `(year, month, day)`. -/
def civilFromDays (z : Nat) : Nat × Nat × Nat :=
  let z' := z + 719468
  let era := z' / 146097
  let doe := z' % 146097
  let yoe := (doe - doe / 1460 + doe / 36524 - doe / 146096) / 365
  let y := yoe + era * 400
  let doy := doe - (365 * yoe + yoe / 4 - yoe / 100)
  let mp := (5 * doy + 2) / 153
  let d := doy - (153 * mp + 2) / 5 + 1
  let m := if mp < 10 then mp + 3 else mp - 9
  let y' := if m ≤ 2 then y + 1 else y
  (y', m, d)

/-- Left-pad a decimal rendering to two digits. -/
def pad2 (n : Nat) : String :=
  if n < 10 then "0" ++ toString n else toString n

/-- Left-pad a decimal rendering to three digits. -/
def pad3 (n : Nat) : String :=
  if n < 10 then "00" ++ toString n
  else if n < 100 then "0" ++ toString n
  else toString n

/-- Modelled from the spec: render a UTC instant (nanoseconds since the Unix
epoch) as RFC3339 with millisecond precision.  Sub-millisecond digits are
dropped by integer division (truncation, not rounding). -/
def formatRFC3339Millis (ns : Nat) : String :=
  let totalMillis := ns / 1000000
  let millis := totalMillis % 1000
  let totalSecs := totalMillis / 1000
  let secs := totalSecs % 60
  let totalMins := totalSecs / 60
  let mins := totalMins % 60
  let totalHours := totalMins / 60
  let hours := totalHours % 24
  let days := totalHours / 24
  let ymd := civilFromDays days
  toString ymd.1 ++ "-" ++ pad2 ymd.2.1 ++ "-" ++ pad2 ymd.2.2 ++ "T" ++
    pad2 hours ++ ":" ++ pad2 mins ++ ":" ++ pad2 secs ++ "." ++
    pad3 millis ++ "Z"

/-! ## Events and the encoder -/

/-- The data-stream triple `(type, dataset, namespace)` carried by an event.
Field names carry a trailing underscore where the original name is a Lean
keyword. -/
structure DataStream where
  type_ : String
  dataset : String
  namespace_ : String
deriving DecidableEq, Repr

/-- Destination index name `"<type>-<dataset>-<namespace>"`. -/
def DataStream.indexName (ds : DataStream) : String :=
  ds.type_ ++ "-" ++ ds.dataset ++ "-" ++ ds.namespace_

/-- An APM event: a UTC timestamp (nanoseconds since epoch), a data-stream
triple, and event-specific fields already serialized to JSON values.  The
spec keeps the payload opaque: "an event carries a timestamp and a
data-stream triple (type, dataset, namespace), and can be serialized to a
JSON document". -/
structure APMEvent where
  timestampNs : Nat
  dataStream : DataStream
  extraFields : List (String × String)
deriving DecidableEq, Repr

/-- Modelled from the spec: the source document produced by `encode`, as an
ordered JSON field set — top-level `@timestamp` (RFC3339 ms) and the dotted
`data_stream.*` keys, plus event-specific fields. -/
def encodeSource (e : APMEvent) : List (String × String) :=
  ("@timestamp", formatRFC3339Millis e.timestampNs) ::
  ("data_stream.type", e.dataStream.type_) ::
  ("data_stream.dataset", e.dataStream.dataset) ::
  ("data_stream.namespace", e.dataStream.namespace_) ::
  e.extraFields

/-- Modelled from the spec: the action line of the two-line bulk payload,
`\x7b"create":\x7b"_index":"<dest>"\x7d\x7d`. -/
def encodeAction (e : APMEvent) : String :=
  "\x7b\"create\":\x7b\"_index\":\"" ++ e.dataStream.indexName ++ "\"\x7d\x7d"

/-- The event of the encoding test: `time.Unix(123, 456789111).UTC()` with
data stream `(logs, apm_server, testing)`. -/
def sampleEvent : APMEvent :=
  ⟨123 * 1000000000 + 456789111, ⟨"logs", "apm_server", "testing"⟩, []⟩

/-! ## Configuration

Modelled from the spec §6: recognized options and their defaults. -/

/-- Configuration of one scaling direction (`ScaleUp` / `ScaleDown`): a tick-count threshold and
a cooldown duration (durations and instants are modelled as abstract Nat
ticks of time). -/
structure ScaleActionConfig where
  threshold : Nat
  coolDown : Nat
deriving DecidableEq, Repr

/-- Scaling controller configuration. -/
structure ScalingConfig where
  disabled : Bool
  idleInterval : Nat
  scaleUp : ScaleActionConfig
  scaleDown : ScaleActionConfig
deriving DecidableEq, Repr

/-- Indexer configuration (spec §6 "Config"). -/
structure Config where
  flushBytes : Nat
  flushInterval : Nat
  maxBulkRequests : Nat
  eventBufferSize : Nat
  scaling : ScalingConfig
deriving DecidableEq, Repr

/-- Default configuration: `FlushBytes` 5 MiB, `FlushInterval` 30 s,
`MaxBulkRequests` 10, `EventBufferSize` 100. -/
def defaultConfig : Config :=
  ⟨5 * 1024 * 1024, 30, 10, 100, ⟨false, 1, ⟨1, 0⟩, ⟨1, 0⟩⟩⟩

/-! ## Bulk responses and per-item failure classification

Modelled from the spec §7: a 2xx response carries `has_errors` and per-item
statuses with an optional `(type, reason)` error; a non-2xx response is a
`FlushError`. -/

/-- One per-item result in a 2xx bulk response body. -/
structure ItemResult where
  status : Nat
  errorType : String
  errorReason : String
deriving DecidableEq, Repr

/-- The transport's response to one flush: either a non-2xx HTTP status
(with its reason phrase and body), or a 2xx response with `has_errors` and
the per-item results. -/
inductive BulkResponse where
  | httpError (status : Nat) (reason : String) (body : String)
  | items (hasErrors : Bool) (results : List ItemResult)
deriving DecidableEq, Repr

/-- Number of items counted `Failed`: per-item status ≥ 400. -/
def countFailed (rs : List ItemResult) : Nat :=
  (rs.filter (fun r => 400 ≤ r.status)).length

/-- Number of items counted `Indexed`: per-item status < 400. -/
def countIndexed (rs : List ItemResult) : Nat :=
  (rs.filter (fun r => r.status < 400)).length

/-- Number of items additionally counted `TooManyRequests`:
per-item status 429. -/
def countTooMany (rs : List ItemResult) : Nat :=
  (rs.filter (fun r => r.status = 429)).length

/-- Message of a `FlushError`: `"flush failed: [<code> <reason>] <body>"`. -/
def flushFailedMessage (status : Nat) (reason body : String) : String :=
  "flush failed: [" ++ toString status ++ " " ++ reason ++ "] " ++ body

/-! ## Log limiter

Modelled from the spec §4.7: "For each distinct `(errorType, errorReason)`
key observed during a single flush ... emit at most one log line." -/

/-- The log line for one failed item. -/
def logMessage (r : ItemResult) : String :=
  "failed to index event (" ++ r.errorType ++ "): " ++ r.errorReason

/-- Walk the failed items of one flush, emitting one log line per distinct
`(errorType, errorReason)` key not yet seen. -/
def flushLogLinesGo : List ItemResult → List (String × String) → List String
  | [], _ => []
  | r :: rest, seen =>
    if 400 ≤ r.status then
      if (r.errorType, r.errorReason) ∈ seen then
        flushLogLinesGo rest seen
      else
        logMessage r :: flushLogLinesGo rest ((r.errorType, r.errorReason) :: seen)
    else
      flushLogLinesGo rest seen

/-- The rate-limited log lines produced by one flush. -/
def flushLogLines (rs : List ItemResult) : List String :=
  flushLogLinesGo rs []

/-! ## Pool state

Modelled from the spec §3 "PoolState" and §4.6 "StatsRegistry": a bounded
queue of encoded items (tracked by count — per-item outcomes arrive with
the flush response), the set of in-use bulk buffers (tracked by their item
counts), the free-buffer count, the atomic counters, the scaling state, the
closed flag, the first flush error, and — for relating `BytesTotal` to the
transport — the list of payload byte lengths the transport observed. -/

structure IndexerState where
  cfg : Config
  gomaxprocs : Nat
  itemsQueue : Nat
  activeBuffers : List Nat
  freeBuffers : Nat
  added : Nat
  indexed : Nat
  failed : Nat
  tooManyRequests : Nat
  bulkRequests : Nat
  bytesTotal : Nat
  indexersActive : Nat
  indexersCreated : Nat
  indexersDestroyed : Nat
  upPressureCount : Nat
  downIdleCount : Nat
  lastUpAt : Nat
  lastDownAt : Nat
  closed : Bool
  flushError : Option String
  transportPayloads : List Nat
  logLines : List String
deriving DecidableEq, Repr

/-- Initial state: all buffers free, one active indexer running
(spec §4.5: "exactly one ActiveIndexer is always running"). -/
def initState (cfg : Config) (gomaxprocs : Nat) : IndexerState :=
  ⟨cfg, gomaxprocs, 0, [], cfg.maxBulkRequests,
   0, 0, 0, 0, 0, 0, 1, 0, 0, 0, 0, 0, 0, false, none, [], []⟩

/-- Stats snapshot (spec §4.4): `Active = Added - Indexed - Failed`,
`AvailableBulkRequests` is the free-buffer count. -/
structure Stats where
  added : Nat
  active : Nat
  bulkRequests : Nat
  failed : Nat
  indexed : Nat
  tooManyRequests : Nat
  availableBulkRequests : Nat
  bytesTotal : Nat
  indexersActive : Nat
  indexersCreated : Nat
  indexersDestroyed : Nat
deriving DecidableEq, Repr

/-- Take a stats snapshot of the pool state. -/
def stats (s : IndexerState) : Stats :=
  ⟨s.added, s.added - s.indexed - s.failed, s.bulkRequests, s.failed,
   s.indexed, s.tooManyRequests, s.freeBuffers, s.bytesTotal,
   s.indexersActive, s.indexersCreated, s.indexersDestroyed⟩

/-! ## ProcessBatch

Modelled from the spec §4.4: if the pool is closed, return `ErrClosed`
without touching the state; otherwise, for each event, encode it and then
send it on the shared items channel, selecting between the send completing,
`ctx.Done`, and the pool's closed signal.  The environment's choice at each
send is an explicit `SendOutcome` parameter. -/

/-- The resolution of one blocking channel send inside `ProcessBatch`. -/
inductive SendOutcome where
  | sent
  | ctxDone
  | poolClosed
deriving DecidableEq, Repr

/-- Errors `ProcessBatch` can return in this model (an `EncodeError` for an
unserializable payload is also possible in the source; the events in the
claims are all serializable). -/
inductive PBErr where
  | errClosed
  | ctxErr
deriving DecidableEq, Repr

/-- Per-event enqueue loop of `ProcessBatch`: a completed send increments
`Added` and the items-queue length; `ctx.Done` or the closed signal aborts
with the corresponding error. -/
def processBatchGo (s : IndexerState) : List SendOutcome → IndexerState × Option PBErr
  | [] => (s, none)
  | SendOutcome.sent :: rest =>
      processBatchGo { s with added := s.added + 1, itemsQueue := s.itemsQueue + 1 } rest
  | SendOutcome.ctxDone :: _ => (s, some PBErr.ctxErr)
  | SendOutcome.poolClosed :: _ => (s, some PBErr.errClosed)

/-- Entry point `ProcessBatch`: `ErrClosed` on a closed pool, otherwise the enqueue
loop.  The outcome list has one entry per event of the batch. -/
def processBatch (s : IndexerState) (outcomes : List SendOutcome) :
    IndexerState × Option PBErr :=
  if s.closed then (s, some PBErr.errClosed) else processBatchGo s outcomes

/-! ## Flush

Modelled from the spec §4.3 step 5 and §7: seal the buffer, send it to the
transport, parse the response, update stats, log failed items
(rate-limited), and return the buffer to the free list.  `payloadLen` is
the post-compression byte length of the request body; it is appended to the
transport-observed list and added to `BytesTotal`. -/

def applyFlush (s : IndexerState) (i : Nat) (resp : BulkResponse)
    (payloadLen : Nat) : IndexerState :=
  match s.activeBuffers[i]? with
  | none => s
  | some b =>
    let rest := s.activeBuffers.eraseIdx i
    match resp with
    | BulkResponse.httpError st reason body =>
        { s with activeBuffers := rest, freeBuffers := s.freeBuffers + 1,
                 bulkRequests := s.bulkRequests + 1,
                 bytesTotal := s.bytesTotal + payloadLen,
                 transportPayloads := s.transportPayloads ++ [payloadLen],
                 failed := s.failed + b,
                 tooManyRequests :=
                   s.tooManyRequests + (if st = 429 then b else 0),
                 flushError :=
                   match s.flushError with
                   | some m => some m
                   | none => some (flushFailedMessage st reason body) }
    | BulkResponse.items false _ =>
        { s with activeBuffers := rest, freeBuffers := s.freeBuffers + 1,
                 bulkRequests := s.bulkRequests + 1,
                 bytesTotal := s.bytesTotal + payloadLen,
                 transportPayloads := s.transportPayloads ++ [payloadLen],
                 indexed := s.indexed + b }
    | BulkResponse.items true rs =>
        if rs.length = b then
          { s with activeBuffers := rest, freeBuffers := s.freeBuffers + 1,
                   bulkRequests := s.bulkRequests + 1,
                   bytesTotal := s.bytesTotal + payloadLen,
                   transportPayloads := s.transportPayloads ++ [payloadLen],
                   indexed := s.indexed + countIndexed rs,
                   failed := s.failed + countFailed rs,
                   tooManyRequests := s.tooManyRequests + countTooMany rs,
                   logLines := s.logLines ++ flushLogLines rs }
        else s

/-! ## Scaling controller

Modelled from the spec §4.5: every tick, first enforce
`activeLimit = max(1, GOMAXPROCS/4)` unconditionally (ignoring cooldowns);
then a high 429 rate forces a downscale ignoring `ScaleDown.CoolDown`;
then pressure drives upscaling and idleness drives downscaling, each
subject to threshold and cooldown. -/

/-- The bound `activeLimit = max(1, GOMAXPROCS/4)`. -/
def activeLimit (gomaxprocs : Nat) : Nat :=
  max 1 (gomaxprocs / 4)

def applyScaleTick (s : IndexerState) (now : Nat) (pressure rate429High : Bool) :
    IndexerState :=
  if s.closed || s.cfg.scaling.disabled then s else
  if activeLimit s.gomaxprocs < s.indexersActive then
    { s with indexersActive := activeLimit s.gomaxprocs,
             indexersDestroyed :=
               s.indexersDestroyed + (s.indexersActive - activeLimit s.gomaxprocs) }
  else if rate429High && 1 < s.indexersActive then
    { s with indexersActive := s.indexersActive - 1,
             indexersDestroyed := s.indexersDestroyed + 1,
             lastDownAt := now }
  else if pressure && s.indexersActive < activeLimit s.gomaxprocs then
    if s.cfg.scaling.scaleUp.threshold ≤ s.upPressureCount + 1 &&
        s.cfg.scaling.scaleUp.coolDown ≤ now - s.lastUpAt then
      { s with indexersActive := s.indexersActive + 1,
               indexersCreated := s.indexersCreated + 1,
               upPressureCount := 0, lastUpAt := now }
    else { s with upPressureCount := s.upPressureCount + 1 }
  else
    if s.cfg.scaling.scaleDown.threshold ≤ s.downIdleCount + 1 &&
        1 < s.indexersActive &&
        s.cfg.scaling.scaleDown.coolDown ≤ now - s.lastDownAt then
      { s with indexersActive := s.indexersActive - 1,
               indexersDestroyed := s.indexersDestroyed + 1,
               downIdleCount := 0, lastDownAt := now }
    else { s with downIdleCount := s.downIdleCount + 1 }

/-! ## Actions and runs

One run of the system is a list of actions interleaving producer calls,
indexer task steps, scaling ticks, `GOMAXPROCS` changes, and the two phases
of `Close` (mark closed, then stop each drained indexer — indexers stopped
during `Close` do not touch the created/destroyed counters, which belong to
the scaling controller). -/

inductive Action where
  | processBatchAct (outcomes : List SendOutcome)
  | takeBuffer
  | consumeItem (i : Nat)
  | flush (i : Nat) (resp : BulkResponse) (payloadLen : Nat)
  | scaleTick (now : Nat) (pressure rate429High : Bool)
  | setGomaxprocs (g : Nat)
  | closeSignal
  | closeStop
deriving DecidableEq, Repr

/-- An active indexer obtains a bulk buffer from the free list. -/
def applyTakeBuffer (s : IndexerState) : IndexerState :=
  if s.freeBuffers = 0 then s
  else { s with freeBuffers := s.freeBuffers - 1,
                activeBuffers := s.activeBuffers ++ [0] }

/-- An active indexer receives one encoded item from the shared channel and
appends it to its bulk buffer. -/
def applyConsume (s : IndexerState) (i : Nat) : IndexerState :=
  if s.itemsQueue = 0 then s else
  match s.activeBuffers[i]? with
  | none => s
  | some b =>
      { s with itemsQueue := s.itemsQueue - 1,
               activeBuffers := s.activeBuffers.set i (b + 1) }

/-- Apply one action to the pool state. -/
def applyAction (s : IndexerState) : Action → IndexerState
  | Action.processBatchAct outs => (processBatch s outs).1
  | Action.takeBuffer => applyTakeBuffer s
  | Action.consumeItem i => applyConsume s i
  | Action.flush i resp payloadLen => applyFlush s i resp payloadLen
  | Action.scaleTick now p r => applyScaleTick s now p r
  | Action.setGomaxprocs g => { s with gomaxprocs := g }
  | Action.closeSignal => { s with closed := true }
  | Action.closeStop =>
      if s.closed && 0 < s.indexersActive then
        { s with indexersActive := s.indexersActive - 1 }
      else s

/-- Run a list of actions from a state. -/
def run (s : IndexerState) : List Action → IndexerState
  | [] => s
  | a :: rest => run (applyAction s a) rest

/-! ## Close

Modelled from the spec §4.4: `Close(ctx)` marks the pool closed, signals
all active indexers to flush-and-stop, waits for the drain to complete or
for `ctx` to be done, and returns `ctx.Err()` if the context fired,
otherwise the first flush error observed, or nil. -/

/-- The value `Close` returns, as a function of the state it returns in and
of whether its context was cancelled while it waited. -/
inductive CloseResult where
  | ok
  | ctxErr
  | flushFailed (msg : String)
deriving DecidableEq, Repr

def closeResult (s : IndexerState) (ctxCancelled : Bool) : CloseResult :=
  if ctxCancelled then CloseResult.ctxErr
  else
    match s.flushError with
    | some m => CloseResult.flushFailed m
    | none => CloseResult.ok

/-- The drained condition under which a non-cancelled `Close` returns: the
shared channel is empty, every bulk buffer has been flushed and returned,
and every active indexer has stopped. -/
def Drained (s : IndexerState) : Prop :=
  s.itemsQueue = 0 ∧ s.activeBuffers = [] ∧ s.indexersActive = 0

instance (s : IndexerState) : Decidable (Drained s) := by
  unfold Drained; infer_instance


/-- Adding `k` successfully enqueued items to the state: the shape of
`processBatchGo`'s effect. -/
def addItems (s : IndexerState) (k : Nat) : IndexerState :=
  { s with added := s.added + k, itemsQueue := s.itemsQueue + k }

/-- The largest `GOMAXPROCS` value in effect at any point of a run that
starts with value `g` and performs the given actions. -/
def maxProcsSeen (g : Nat) : List Action → Nat
  | [] => g
  | Action.setGomaxprocs g2 :: rest => maxProcsSeen (max g g2) rest
  | _ :: rest => maxProcsSeen g rest

/-! ## The encode-before-send ordering inside ProcessBatch

Modelled from the spec §4.4: "For each event: encode; send the EncodedItem
on the shared `items` channel ... MUST encode BEFORE blocking on the
channel".  `processBatchTrace` renders the observable steps of one
`ProcessBatch` call: for the `i`-th event, an `encodeStep i` always
happens, then either the send completes (`sendStep i`) and the loop
continues, or the call blocks and is interrupted (`blockStep i`, on
`ctx.Done` or the pool's closed signal) and returns. -/

inductive PBStep where
  | encodeStep (i : Nat)
  | sendStep (i : Nat)
  | blockStep (i : Nat)
deriving DecidableEq, Repr

/-- The step trace of one `ProcessBatch` call, numbering events from `n`. -/
def processBatchTrace : List SendOutcome → Nat → List PBStep
  | [], _ => []
  | SendOutcome.sent :: rest, i =>
      PBStep.encodeStep i :: PBStep.sendStep i :: processBatchTrace rest (i + 1)
  | SendOutcome.ctxDone :: _, i => [PBStep.encodeStep i, PBStep.blockStep i]
  | SendOutcome.poolClosed :: _, i => [PBStep.encodeStep i, PBStep.blockStep i]

/-- Trace checker: scanning left to right while remembering which events
have been encoded, every send of — or block on — event `i` is preceded by
the encoding of event `i`. -/
def encodedFirst : List PBStep → List Nat → Bool
  | [], _ => true
  | PBStep.encodeStep i :: rest, enc => encodedFirst rest (i :: enc)
  | PBStep.sendStep i :: rest, enc => enc.contains i && encodedFirst rest enc
  | PBStep.blockStep i :: rest, enc => enc.contains i && encodedFirst rest enc

/-! ## Concrete scenarios from the test suite -/

/-- A run that enqueues one event, flushes it successfully and closes:
`Close` returns nil on it. -/
def c1Trace : List Action :=
  [Action.processBatchAct [SendOutcome.sent], Action.takeBuffer, Action.consumeItem 0,
   Action.flush 0 (BulkResponse.items false []) 5, Action.closeSignal, Action.closeStop]

/-- Per-item results of the partial-failure test: items[0] status 500,
items[1] status 429, the remaining eight 201. -/
def partialResults : List ItemResult :=
  ⟨500, "", ""⟩ :: ⟨429, "", ""⟩ :: List.replicate 8 ⟨201, "", ""⟩

/-- Ten events, one partial-failure flush, then `Close`. -/
def c3Trace : List Action :=
  Action.processBatchAct (List.replicate 10 SendOutcome.sent) :: Action.takeBuffer ::
    (List.replicate 10 (Action.consumeItem 0) ++
      [Action.flush 0 (BulkResponse.items true partialResults) 123,
       Action.closeSignal, Action.closeStop])

/-- The prefix of `c3Trace` before its flush. -/
def c3Prefix : List Action :=
  Action.processBatchAct (List.replicate 10 SendOutcome.sent) :: Action.takeBuffer ::
    List.replicate 10 (Action.consumeItem 0)

/-- One event whose flush gets an HTTP 500, then `Close`. -/
def c4Trace : List Action :=
  [Action.processBatchAct [SendOutcome.sent], Action.takeBuffer, Action.consumeItem 0,
   Action.flush 0 (BulkResponse.httpError 500 "Internal Server Error" "") 7,
   Action.closeSignal, Action.closeStop]

/-- The prefix of `c4Trace` before its flush. -/
def c4Prefix : List Action :=
  [Action.processBatchAct [SendOutcome.sent], Action.takeBuffer, Action.consumeItem 0]

/-- A run with one event still pending: not drained. -/
def c5Busy : List Action :=
  [Action.processBatchAct [SendOutcome.sent]]

/-- A scaling configuration that upscales on every pressured tick
(threshold 1, no cooldown) and downscales reluctantly. -/
def c7Cfg : Config :=
  ⟨1, 1, 10, 100, ⟨false, 1, ⟨1, 0⟩, ⟨100, 1000⟩⟩⟩

/-- Upscale to three indexers under `GOMAXPROCS = 12`, then lower
`GOMAXPROCS` to 4 (limit 1) without a further tick. -/
def c7Trace : List Action :=
  [Action.scaleTick 1 true false, Action.scaleTick 2 true false, Action.setGomaxprocs 4]

/-- The `i`-th failing item of the log-rate-limit test: status 500, error
type `error_type`, reason alternating even/odd. -/
def altItem (i : Nat) : ItemResult :=
  ⟨500, "error_type", if i % 2 = 0 then "error_reason_even" else "error_reason_odd"⟩

/-- The 100 failing items of the log-rate-limit test. -/
def altItems : List ItemResult :=
  (List.range 100).map altItem

/-- One hundred events, one flush in which all 100 items fail with
alternating reasons. -/
def c9Trace : List Action :=
  Action.processBatchAct (List.replicate 100 SendOutcome.sent) :: Action.takeBuffer ::
    (List.replicate 100 (Action.consumeItem 0) ++
      [Action.flush 0 (BulkResponse.items true altItems) 999])

/-- Upscale from one indexer to two, flush both events, then `Close`. -/
def c10Trace : List Action :=
  [Action.processBatchAct (List.replicate 2 SendOutcome.sent), Action.takeBuffer,
   Action.consumeItem 0, Action.consumeItem 0, Action.scaleTick 1 true false,
   Action.flush 0 (BulkResponse.items false []) 10,
   Action.closeSignal, Action.closeStop, Action.closeStop]


end ModelIndexer

namespace ModelIndexer

/-! ## Conservation invariants -/

/-- Event conservation: every added event is indexed, failed, waiting in the
shared channel, or sitting in some in-use bulk buffer. -/
def InvAdded (s : IndexerState) : Prop :=
  s.added = s.indexed + s.failed + s.itemsQueue + s.activeBuffers.sum

/-- Buffer conservation: free buffers plus in-use buffers account for all
`MaxBulkRequests` bulk buffers created at construction. -/
def InvBuffers (s : IndexerState) : Prop :=
  s.freeBuffers + s.activeBuffers.length = s.cfg.maxBulkRequests

/-- Byte accounting: `BytesTotal` is the sum of the payload lengths the
transport observed. -/
def InvBytes (s : IndexerState) : Prop :=
  s.bytesTotal = s.transportPayloads.sum

/-- The conjunction of the conservation invariants. -/
def Inv (s : IndexerState) : Prop :=
  InvAdded s ∧ InvBuffers s ∧ InvBytes s

theorem inv_init (cfg : Config) (g : Nat) : Inv (initState cfg g) := by
  refine ⟨rfl, ?_, rfl⟩
  simp [InvBuffers, initState]

theorem sum_set_succ :
    ∀ (l : List Nat) (i b : Nat), l[i]? = some b →
      (l.set i (b + 1)).sum = l.sum + 1 := by
  intro l
  induction l with
  | nil => intro i b h; simp at h
  | cons x xs ih =>
    intro i b h
    cases i with
    | zero =>
      simp at h
      subst h
      simp [List.set]
      omega
    | succ n =>
      simp at h
      have := ih n b h
      simp [List.set]
      omega

theorem sum_eraseIdx :
    ∀ (l : List Nat) (i b : Nat), l[i]? = some b →
      l.sum = (l.eraseIdx i).sum + b := by
  intro l
  induction l with
  | nil => intro i b h; simp at h
  | cons x xs ih =>
    intro i b h
    cases i with
    | zero =>
      simp at h
      subst h
      simp [List.eraseIdx]
      omega
    | succ n =>
      simp at h
      have := ih n b h
      simp [List.eraseIdx]
      omega

theorem length_eraseIdx :
    ∀ (l : List Nat) (i b : Nat), l[i]? = some b →
      l.length = (l.eraseIdx i).length + 1 := by
  intro l
  induction l with
  | nil => intro i b h; simp at h
  | cons x xs ih =>
    intro i b h
    cases i with
    | zero => simp [List.eraseIdx]
    | succ n =>
      simp at h
      have := ih n b h
      simp [List.eraseIdx]
      omega

theorem countIndexed_add_countFailed (rs : List ItemResult) :
    countIndexed rs + countFailed rs = rs.length := by
  induction rs with
  | nil => rfl
  | cons r rest ih =>
    by_cases h : 400 ≤ r.status
    · have h2 : ¬ r.status < 400 := by omega
      simp [countIndexed, countFailed, List.filter_cons, h, h2] at ih ⊢
      omega
    · have h2 : r.status < 400 := by omega
      simp [countIndexed, countFailed, List.filter_cons, h, h2] at ih ⊢
      omega

end ModelIndexer

namespace ModelIndexer

theorem processBatchGo_shape :
    ∀ (outs : List SendOutcome) (s : IndexerState),
      ∃ k, (processBatchGo s outs).1 = addItems s k := by
  intro outs
  induction outs with
  | nil =>
    intro s
    exact ⟨0, by simp [processBatchGo, addItems]⟩
  | cons o rest ih =>
    intro s
    cases o with
    | sent =>
      obtain ⟨k, hk⟩ := ih { s with added := s.added + 1, itemsQueue := s.itemsQueue + 1 }
      refine ⟨k + 1, ?_⟩
      rw [processBatchGo, hk]
      simp [addItems, IndexerState.mk.injEq]
      omega
    | ctxDone => exact ⟨0, by simp [processBatchGo, addItems]⟩
    | poolClosed => exact ⟨0, by simp [processBatchGo, addItems]⟩

theorem inv_addItems (s : IndexerState) (k : Nat) (h : Inv s) :
    Inv (addItems s k) := by
  obtain ⟨h1, h2, h3⟩ := h
  unfold Inv InvAdded InvBuffers InvBytes addItems at *
  refine ⟨?_, h2, h3⟩
  simp only []
  omega

theorem inv_processBatch (s : IndexerState) (outs : List SendOutcome) (h : Inv s) :
    Inv (processBatch s outs).1 := by
  unfold processBatch
  split
  · exact h
  · obtain ⟨k, hk⟩ := processBatchGo_shape outs s
    rw [hk]
    exact inv_addItems s k h

theorem inv_takeBuffer (s : IndexerState) (h : Inv s) :
    Inv (applyTakeBuffer s) := by
  obtain ⟨h1, h2, h3⟩ := h
  unfold applyTakeBuffer
  split
  · exact ⟨h1, h2, h3⟩
  · refine ⟨?_, ?_, h3⟩
    · unfold InvAdded at *
      simp
      omega
    · unfold InvBuffers at *
      simp
      omega

theorem inv_consume (s : IndexerState) (i : Nat) (h : Inv s) :
    Inv (applyConsume s i) := by
  obtain ⟨h1, h2, h3⟩ := h
  unfold applyConsume
  split
  · exact ⟨h1, h2, h3⟩
  · cases hb : s.activeBuffers[i]? with
    | none => exact ⟨h1, h2, h3⟩
    | some b =>
      refine ⟨?_, ?_, h3⟩
      · unfold InvAdded at *
        have hs := sum_set_succ s.activeBuffers i b hb
        simp only []
        omega
      · unfold InvBuffers at *
        simp
        omega

theorem inv_flush (s : IndexerState) (i : Nat) (resp : BulkResponse)
    (payloadLen : Nat) (h : Inv s) : Inv (applyFlush s i resp payloadLen) := by
  obtain ⟨h1, h2, h3⟩ := h
  unfold Inv InvAdded InvBuffers InvBytes at *
  cases hb : s.activeBuffers[i]? with
  | none =>
    simp only [applyFlush, hb]
    exact ⟨h1, h2, h3⟩
  | some b =>
    have hsum := sum_eraseIdx s.activeBuffers i b hb
    have hlen := length_eraseIdx s.activeBuffers i b hb
    cases resp with
    | httpError st reason body =>
      simp [applyFlush, hb, List.sum_append]
      refine ⟨by omega, by omega, by omega⟩
    | items hasErrors rs =>
      cases hasErrors with
      | false =>
        simp [applyFlush, hb, List.sum_append]
        refine ⟨by omega, by omega, by omega⟩
      | true =>
        by_cases hrs : rs.length = b
        · have hcnt := countIndexed_add_countFailed rs
          simp [applyFlush, hb, hrs, List.sum_append]
          refine ⟨by omega, by omega, by omega⟩
        · simp only [applyFlush, hb, hrs, if_neg hrs]
          exact ⟨h1, h2, h3⟩

theorem inv_scaleTick (s : IndexerState) (now : Nat) (p r : Bool) (h : Inv s) :
    Inv (applyScaleTick s now p r) := by
  unfold applyScaleTick
  split_ifs <;> exact h

theorem inv_applyAction (s : IndexerState) (a : Action) (h : Inv s) :
    Inv (applyAction s a) := by
  cases a with
  | processBatchAct outs => exact inv_processBatch s outs h
  | takeBuffer => exact inv_takeBuffer s h
  | consumeItem i => exact inv_consume s i h
  | flush i resp payloadLen => exact inv_flush s i resp payloadLen h
  | scaleTick now p r => exact inv_scaleTick s now p r h
  | setGomaxprocs g => exact h
  | closeSignal => exact h
  | closeStop =>
    simp only [applyAction]
    split <;> exact h

theorem inv_run :
    ∀ (acts : List Action) (s : IndexerState), Inv s → Inv (run s acts) := by
  intro acts
  induction acts with
  | nil => intro s h; exact h
  | cons a rest ih =>
    intro s h
    exact ih (applyAction s a) (inv_applyAction s a h)

theorem cfg_applyAction (s : IndexerState) (a : Action) :
    (applyAction s a).cfg = s.cfg := by
  cases a with
  | processBatchAct outs =>
    show (processBatch s outs).1.cfg = s.cfg
    unfold processBatch
    split
    · rfl
    · obtain ⟨k, hk⟩ := processBatchGo_shape outs s
      rw [hk]; rfl
  | takeBuffer =>
    show (applyTakeBuffer s).cfg = s.cfg
    unfold applyTakeBuffer
    split <;> rfl
  | consumeItem i =>
    show (applyConsume s i).cfg = s.cfg
    cases hb : s.activeBuffers[i]? with
    | none => simp only [applyConsume, hb]; split <;> rfl
    | some b => simp only [applyConsume, hb]; split <;> rfl
  | flush i resp payloadLen =>
    show (applyFlush s i resp payloadLen).cfg = s.cfg
    cases hb : s.activeBuffers[i]? with
    | none => simp only [applyFlush, hb]
    | some b =>
      cases resp with
      | httpError st reason body => simp only [applyFlush, hb]
      | items hasErrors rs =>
        cases hasErrors with
        | false => simp only [applyFlush, hb]
        | true =>
          by_cases hrs : rs.length = b
          · simp only [applyFlush, hb, if_pos hrs]
          · simp only [applyFlush, hb, if_neg hrs]
  | scaleTick now p r =>
    show (applyScaleTick s now p r).cfg = s.cfg
    unfold applyScaleTick
    split_ifs <;> rfl
  | setGomaxprocs g => rfl
  | closeSignal => rfl
  | closeStop =>
    show (applyAction s Action.closeStop).cfg = s.cfg
    simp only [applyAction]
    split <;> rfl

theorem cfg_run :
    ∀ (acts : List Action) (s : IndexerState), (run s acts).cfg = s.cfg := by
  intro acts
  induction acts with
  | nil => intro s; rfl
  | cons a rest ih =>
    intro s
    rw [run, ih (applyAction s a), cfg_applyAction]

end ModelIndexer

namespace ModelIndexer

/-! ## Active indexer bound -/

theorem activeLimit_mono {g M : Nat} (h : g ≤ M) : activeLimit g ≤ activeLimit M := by
  unfold activeLimit
  omega

theorem scaleTick_gomaxprocs (s : IndexerState) (now : Nat) (p r : Bool) :
    (applyScaleTick s now p r).gomaxprocs = s.gomaxprocs := by
  unfold applyScaleTick
  split_ifs <;> rfl

theorem scaleTick_active_le (s : IndexerState) (now : Nat) (p r : Bool) :
    (applyScaleTick s now p r).indexersActive ≤
      max s.indexersActive (activeLimit s.gomaxprocs) := by
  unfold applyScaleTick
  split_ifs with h1 h2 h3 h4 h5 h6 <;> simp_all <;> omega

theorem processBatch_frame (s : IndexerState) (outs : List SendOutcome) :
    (processBatch s outs).1.gomaxprocs = s.gomaxprocs ∧
    (processBatch s outs).1.indexersActive = s.indexersActive := by
  unfold processBatch
  split
  · exact ⟨rfl, rfl⟩
  · obtain ⟨k, hk⟩ := processBatchGo_shape outs s
    rw [hk]
    exact ⟨rfl, rfl⟩

theorem takeBuffer_frame (s : IndexerState) :
    (applyTakeBuffer s).gomaxprocs = s.gomaxprocs ∧
    (applyTakeBuffer s).indexersActive = s.indexersActive := by
  unfold applyTakeBuffer
  split <;> exact ⟨rfl, rfl⟩

theorem consume_frame (s : IndexerState) (i : Nat) :
    (applyConsume s i).gomaxprocs = s.gomaxprocs ∧
    (applyConsume s i).indexersActive = s.indexersActive := by
  unfold applyConsume
  split
  · exact ⟨rfl, rfl⟩
  · split <;> exact ⟨rfl, rfl⟩

theorem flush_frame (s : IndexerState) (i : Nat) (resp : BulkResponse) (payloadLen : Nat) :
    (applyFlush s i resp payloadLen).gomaxprocs = s.gomaxprocs ∧
    (applyFlush s i resp payloadLen).indexersActive = s.indexersActive := by
  unfold applyFlush
  split
  · exact ⟨rfl, rfl⟩
  · split
    · exact ⟨rfl, rfl⟩
    · exact ⟨rfl, rfl⟩
    · split <;> exact ⟨rfl, rfl⟩

theorem maxProcsSeen_mono :
    ∀ (acts : List Action) (g M : Nat), g ≤ M →
      maxProcsSeen g acts ≤ maxProcsSeen M acts := by
  intro acts
  induction acts with
  | nil => intro g M h; exact h
  | cons a rest ih =>
    intro g M h
    cases a with
    | setGomaxprocs g2 =>
      exact ih (max g g2) (max M g2) (by omega)
    | processBatchAct outs => exact ih g M h
    | takeBuffer => exact ih g M h
    | consumeItem i => exact ih g M h
    | flush i resp payloadLen => exact ih g M h
    | scaleTick now p r => exact ih g M h
    | closeSignal => exact ih g M h
    | closeStop => exact ih g M h

theorem le_maxProcsSeen :
    ∀ (acts : List Action) (g : Nat), g ≤ maxProcsSeen g acts := by
  intro acts
  induction acts with
  | nil => intro g; exact Nat.le_refl g
  | cons a rest ih =>
    intro g
    cases a with
    | setGomaxprocs g2 =>
      exact Nat.le_trans (Nat.le_max_left g g2) (ih (max g g2))
    | processBatchAct outs => exact ih g
    | takeBuffer => exact ih g
    | consumeItem i => exact ih g
    | flush i resp payloadLen => exact ih g
    | scaleTick now p r => exact ih g
    | closeSignal => exact ih g
    | closeStop => exact ih g

theorem active_run :
    ∀ (acts : List Action) (s : IndexerState) (M : Nat),
      s.gomaxprocs ≤ M → s.indexersActive ≤ activeLimit M →
      (run s acts).indexersActive ≤ activeLimit (maxProcsSeen M acts) := by
  intro acts
  induction acts with
  | nil => intro s M _ ha; exact ha
  | cons a rest ih =>
    intro s M hg ha
    rw [run]
    cases a with
    | setGomaxprocs g2 =>
      show (run { s with gomaxprocs := g2 } rest).indexersActive ≤ _
      exact ih _ (max M g2) (by simp)
        (Nat.le_trans ha (activeLimit_mono (Nat.le_max_left M g2)))
    | scaleTick now p r =>
      show (run (applyScaleTick s now p r) rest).indexersActive ≤
        activeLimit (maxProcsSeen M rest)
      refine ih _ M ?_ ?_
      · rw [scaleTick_gomaxprocs]; exact hg
      · refine Nat.le_trans (scaleTick_active_le s now p r) ?_
        have := activeLimit_mono hg
        omega
    | processBatchAct outs =>
      show (run (processBatch s outs).1 rest).indexersActive ≤ _
      refine ih _ M ?_ ?_
      · rw [(processBatch_frame s outs).1]; exact hg
      · rw [(processBatch_frame s outs).2]; exact ha
    | takeBuffer =>
      show (run (applyTakeBuffer s) rest).indexersActive ≤ _
      refine ih _ M ?_ ?_
      · rw [(takeBuffer_frame s).1]; exact hg
      · rw [(takeBuffer_frame s).2]; exact ha
    | consumeItem i =>
      show (run (applyConsume s i) rest).indexersActive ≤ _
      refine ih _ M ?_ ?_
      · rw [(consume_frame s i).1]; exact hg
      · rw [(consume_frame s i).2]; exact ha
    | flush i resp payloadLen =>
      show (run (applyFlush s i resp payloadLen) rest).indexersActive ≤ _
      refine ih _ M ?_ ?_
      · rw [(flush_frame s i resp payloadLen).1]; exact hg
      · rw [(flush_frame s i resp payloadLen).2]; exact ha
    | closeSignal =>
      exact ih _ M hg ha
    | closeStop =>
      show (run (applyAction s Action.closeStop) rest).indexersActive ≤ _
      simp only [applyAction]
      split
      · refine ih _ M hg ?_
        exact Nat.le_trans (Nat.sub_le _ _) ha
      · exact ih _ M hg ha

/-- After a scaling tick on a live pool with scaling enabled,
`IndexersActive` is within the limit for the current `GOMAXPROCS`,
whatever the cooldown state — excess indexers are stopped unconditionally. -/
theorem scaleTick_enforces_limit (s : IndexerState) (now : Nat) (p r : Bool)
    (hc : s.closed = false) (hd : s.cfg.scaling.disabled = false) :
    (applyScaleTick s now p r).indexersActive ≤ activeLimit s.gomaxprocs := by
  unfold applyScaleTick
  split_ifs with h1 h2 h3 h4 h5 h6 <;> simp_all <;> omega

end ModelIndexer

namespace ModelIndexer

theorem encodedFirst_processBatchTrace :
    ∀ (outs : List SendOutcome) (n : Nat) (enc : List Nat),
      encodedFirst (processBatchTrace outs n) enc = true := by
  intro outs
  induction outs with
  | nil => intro n enc; rfl
  | cons o rest ih =>
    intro n enc
    cases o with
    | sent =>
      show encodedFirst
        (PBStep.encodeStep n :: PBStep.sendStep n :: processBatchTrace rest (n + 1)) enc = true
      rw [encodedFirst, encodedFirst]
      simp [ih]
    | ctxDone =>
      show encodedFirst [PBStep.encodeStep n, PBStep.blockStep n] enc = true
      rw [encodedFirst, encodedFirst]
      simp [encodedFirst]
    | poolClosed =>
      show encodedFirst [PBStep.encodeStep n, PBStep.blockStep n] enc = true
      rw [encodedFirst, encodedFirst]
      simp [encodedFirst]

/-- The event whose send blocks (after `k` completed sends) has been
encoded: its `encodeStep` is in the trace. -/
theorem blocked_event_encoded :
    ∀ (k n : Nat),
      PBStep.encodeStep (n + k) ∈
        processBatchTrace (List.replicate k SendOutcome.sent ++ [SendOutcome.poolClosed]) n := by
  intro k
  induction k with
  | zero =>
    intro n
    show PBStep.encodeStep n ∈ [PBStep.encodeStep n, PBStep.blockStep n]
    simp
  | succ m ih =>
    intro n
    show PBStep.encodeStep (n + (m + 1)) ∈
      PBStep.encodeStep n :: PBStep.sendStep n ::
        processBatchTrace (List.replicate m SendOutcome.sent ++ [SendOutcome.poolClosed]) (n + 1)
    have := ih (n + 1)
    have heq : n + 1 + m = n + (m + 1) := by omega
    rw [heq] at this
    exact List.mem_cons_of_mem _ (List.mem_cons_of_mem _ this)

/-- A `ProcessBatch` whose `k + 1`-st send is interrupted by the pool's
closed signal (all earlier sends having completed) returns `ErrClosed`. -/
theorem processBatchGo_closed_errClosed :
    ∀ (k : Nat) (rest : List SendOutcome) (s : IndexerState),
      (processBatchGo s
        (List.replicate k SendOutcome.sent ++ SendOutcome.poolClosed :: rest)).2 =
        some PBErr.errClosed := by
  intro k
  induction k with
  | zero => intro rest s; rfl
  | succ m ih =>
    intro rest s
    show (processBatchGo _ (List.replicate m SendOutcome.sent ++ SendOutcome.poolClosed :: rest)).2 =
      some PBErr.errClosed
    exact ih rest _

/-! ## Frame facts about Close -/

theorem closeStop_counters (s : IndexerState) :
    (applyAction s Action.closeStop).indexersCreated = s.indexersCreated ∧
    (applyAction s Action.closeStop).indexersDestroyed = s.indexersDestroyed := by
  simp only [applyAction]
  split <;> exact ⟨rfl, rfl⟩

theorem closeSignal_counters (s : IndexerState) :
    (applyAction s Action.closeSignal).indexersCreated = s.indexersCreated ∧
    (applyAction s Action.closeSignal).indexersDestroyed = s.indexersDestroyed := by
  exact ⟨rfl, rfl⟩

end ModelIndexer

namespace ModelIndexer

/-! ## The frozen claims -/

/-- C1: for every run after which `Close(ctx)` returns successfully — the
drain completed (channel empty, all buffers returned, all indexers
stopped) and the result is nil — the final stats snapshot satisfies
`Added = Indexed + Failed`, `Active = 0`, `AvailableBulkRequests =
MaxBulkRequests` (10 in the default configuration), and
`IndexersActive = 0`. -/
theorem c1_close_stats (cfg : Config) (g : Nat) (acts : List Action)
    (hdr : Drained (run (initState cfg g) acts))
    (hok : closeResult (run (initState cfg g) acts) false = CloseResult.ok) :
    (stats (run (initState cfg g) acts)).added =
        (stats (run (initState cfg g) acts)).indexed +
          (stats (run (initState cfg g) acts)).failed ∧
    (stats (run (initState cfg g) acts)).active = 0 ∧
    (stats (run (initState cfg g) acts)).availableBulkRequests =
        cfg.maxBulkRequests ∧
    (stats (run (initState cfg g) acts)).indexersActive = 0 ∧
    defaultConfig.maxBulkRequests = 10 := by
  obtain ⟨h1, h2, h3⟩ := inv_run acts (initState cfg g) (inv_init cfg g)
  obtain ⟨hq, hb, hi⟩ := hdr
  have hc : (run (initState cfg g) acts).cfg = cfg := cfg_run acts (initState cfg g)
  unfold InvAdded at h1
  unfold InvBuffers at h2
  rw [hq, hb] at h1
  rw [hb] at h2
  simp at h1 h2
  simp only [stats]
  refine ⟨?_, ?_, ?_, hi, rfl⟩
  · omega
  · omega
  · rw [hc] at h2
    omega

/-- Witness for C1: the happy-path trace drains, closes cleanly, and
satisfies the stats equations. -/
theorem c1_close_stats_witness :
    Drained (run (initState defaultConfig 8) c1Trace) ∧
    closeResult (run (initState defaultConfig 8) c1Trace) false = CloseResult.ok ∧
    ((stats (run (initState defaultConfig 8) c1Trace)).added =
        (stats (run (initState defaultConfig 8) c1Trace)).indexed +
          (stats (run (initState defaultConfig 8) c1Trace)).failed ∧
      (stats (run (initState defaultConfig 8) c1Trace)).active = 0 ∧
      (stats (run (initState defaultConfig 8) c1Trace)).availableBulkRequests =
          defaultConfig.maxBulkRequests ∧
      (stats (run (initState defaultConfig 8) c1Trace)).indexersActive = 0 ∧
      defaultConfig.maxBulkRequests = 10) :=
  ⟨by decide, by decide,
   c1_close_stats defaultConfig 8 c1Trace (by decide) (by decide)⟩

/-- C2: encoding the event with timestamp 1970-01-01T00:02:03.456789111Z
and data stream `(logs, apm_server, testing)` yields exactly the field set
`@timestamp = 1970-01-01T00:02:03.456Z`, `data_stream.type = logs`,
`data_stream.dataset = apm_server`, `data_stream.namespace = testing`;
and every timestamp inside the same millisecond formats identically, so
sub-millisecond digits are dropped (truncated), not rounded. -/
theorem c2_encode_sample :
    encodeSource sampleEvent =
      [("@timestamp", "1970-01-01T00:02:03.456Z"),
       ("data_stream.type", "logs"),
       ("data_stream.dataset", "apm_server"),
       ("data_stream.namespace", "testing")] ∧
    (∀ r : Nat, r < 1000000 →
      formatRFC3339Millis (123456000000 + r) = "1970-01-01T00:02:03.456Z") := by
  refine ⟨by decide, ?_⟩
  intro r hr
  have h : (123456000000 + r) / 1000000 = 123456 := by omega
  simp only [formatRFC3339Millis, h]
  rfl

/-- Witness for C2: the sample event's own sub-millisecond remainder
789111 (which would round the millisecond 456 up to 457) is dropped. -/
theorem c2_encode_sample_witness :
    formatRFC3339Millis (123456000000 + 789111) = "1970-01-01T00:02:03.456Z" :=
  c2_encode_sample.2 789111 (by decide)

/-- C3: in a 2xx flush with `has_errors = true`, items with status ≥ 400
are counted `Failed`, items with status 429 additionally in
`TooManyRequests`, the remaining items in `Indexed`, and the per-item
failures leave the flush error untouched, so `Close` still returns nil;
concretely, ten events with items[0] = 500 and items[1] = 429 yield
`Added = 10, Indexed = 8, Failed = 2, TooManyRequests = 1,
BulkRequests = 1`. -/
theorem c3_partial_failure :
    (∀ (s : IndexerState) (i : Nat) (rs : List ItemResult) (plen : Nat),
      s.activeBuffers[i]? = some rs.length →
      (applyFlush s i (BulkResponse.items true rs) plen).failed =
          s.failed + countFailed rs ∧
      (applyFlush s i (BulkResponse.items true rs) plen).tooManyRequests =
          s.tooManyRequests + countTooMany rs ∧
      (applyFlush s i (BulkResponse.items true rs) plen).indexed =
          s.indexed + countIndexed rs ∧
      (applyFlush s i (BulkResponse.items true rs) plen).flushError =
          s.flushError ∧
      (s.flushError = none →
        closeResult (applyFlush s i (BulkResponse.items true rs) plen) false =
          CloseResult.ok)) ∧
    countFailed partialResults = 2 ∧
    countTooMany partialResults = 1 ∧
    countIndexed partialResults = 8 ∧
    stats (run (initState defaultConfig 8) c3Trace) =
      ⟨10, 0, 1, 2, 8, 1, 10, 123, 0, 0, 0⟩ ∧
    closeResult (run (initState defaultConfig 8) c3Trace) false =
      CloseResult.ok := by
  refine ⟨?_, by decide, by decide, by decide, by decide, by decide⟩
  intro s i rs plen hb
  refine ⟨?_, ?_, ?_, ?_, ?_⟩
  · simp [applyFlush, hb]
  · simp [applyFlush, hb]
  · simp [applyFlush, hb]
  · simp [applyFlush, hb]
  · intro hfe
    simp [applyFlush, hb, closeResult, hfe]

/-- Witness for C3: the partial-failure flush applied after the concrete
ten-event prefix counts both failing items. -/
theorem c3_partial_failure_witness :
    (applyFlush (run (initState defaultConfig 8) c3Prefix) 0
        (BulkResponse.items true partialResults) 123).failed =
      (run (initState defaultConfig 8) c3Prefix).failed +
        countFailed partialResults :=
  (c3_partial_failure.1 (run (initState defaultConfig 8) c3Prefix) 0
    partialResults 123 (by decide)).1

/-- C4: a flush whose transport response is a non-2xx HTTP status counts
every item of the flush as `Failed` (also `TooManyRequests` when the
status is 429), records the first such error — formatted
`flush failed: [<code> <reason>] <body>` — without returning it from
`ProcessBatch` (which leaves the flush error untouched and returns only
nil, `ErrClosed` or a context error), and `Close` returns that first
flush error; concretely an HTTP 500 with empty body produces
`flush failed: [500 Internal Server Error] `. -/
theorem c4_flush_error :
    (∀ (s : IndexerState) (i b st : Nat) (reason body : String) (plen : Nat),
      s.activeBuffers[i]? = some b →
      (applyFlush s i (BulkResponse.httpError st reason body) plen).failed =
          s.failed + b ∧
      (applyFlush s i (BulkResponse.httpError st reason body) plen).tooManyRequests =
          s.tooManyRequests + (if st = 429 then b else 0) ∧
      (s.flushError = none →
        (applyFlush s i (BulkResponse.httpError st reason body) plen).flushError =
          some (flushFailedMessage st reason body)) ∧
      (∀ m : String, s.flushError = some m →
        (applyFlush s i (BulkResponse.httpError st reason body) plen).flushError =
          some m)) ∧
    (∀ (s : IndexerState) (outs : List SendOutcome),
      (processBatch s outs).1.flushError = s.flushError ∧
      ((processBatch s outs).2 = none ∨
        (processBatch s outs).2 = some PBErr.errClosed ∨
        (processBatch s outs).2 = some PBErr.ctxErr)) ∧
    (∀ (s : IndexerState) (m : String), s.flushError = some m →
      closeResult s false = CloseResult.flushFailed m) ∧
    flushFailedMessage 500 "Internal Server Error" "" =
      "flush failed: [500 Internal Server Error] " ∧
    closeResult (run (initState defaultConfig 8) c4Trace) false =
      CloseResult.flushFailed "flush failed: [500 Internal Server Error] " ∧
    stats (run (initState defaultConfig 8) c4Trace) =
      ⟨1, 0, 1, 1, 0, 0, 10, 7, 0, 0, 0⟩ := by
  refine ⟨?_, ?_, ?_, by decide, by decide, by decide⟩
  · intro s i b st reason body plen hb
    refine ⟨?_, ?_, ?_, ?_⟩
    · simp [applyFlush, hb]
    · simp [applyFlush, hb]
    · intro hfe
      simp [applyFlush, hb, hfe]
    · intro m hm
      simp [applyFlush, hb, hm]
  · intro s outs
    constructor
    · unfold processBatch
      split
      · rfl
      · obtain ⟨k, hk⟩ := processBatchGo_shape outs s
        rw [hk]
        rfl
    · rcases hpb : (processBatch s outs).2 with _ | e
      · simp
      · cases e
        · simp
        · simp
  · intro s m hm
    simp [closeResult, hm]

/-- Witness for C4: flushing the concrete one-event prefix against an
HTTP 500 counts its single item as failed. -/
theorem c4_flush_error_witness :
    (applyFlush (run (initState defaultConfig 8) c4Prefix) 0
        (BulkResponse.httpError 500 "Internal Server Error" "") 7).failed =
      (run (initState defaultConfig 8) c4Prefix).failed + 1 :=
  (c4_flush_error.1 (run (initState defaultConfig 8) c4Prefix) 0 1 500
    "Internal Server Error" "" 7 (by decide)).1

/-- C5: once the pool is closed every `ProcessBatch` returns `ErrClosed`
without touching the state; a `ProcessBatch` already blocked on the full
items channel whose send is interrupted by the closed signal also returns
`ErrClosed`; and a `Close` whose context is cancelled returns the context
error, even in a state whose drain has not completed. -/
theorem c5_close_semantics :
    (∀ (s : IndexerState) (outs : List SendOutcome), s.closed = true →
      processBatch s outs = (s, some PBErr.errClosed)) ∧
    (∀ (s : IndexerState) (k : Nat) (rest : List SendOutcome), s.closed = false →
      (processBatch s
        (List.replicate k SendOutcome.sent ++ SendOutcome.poolClosed :: rest)).2 =
        some PBErr.errClosed) ∧
    (∀ s : IndexerState, closeResult s true = CloseResult.ctxErr) ∧
    ¬Drained (run (initState defaultConfig 8) c5Busy) ∧
    closeResult (run (initState defaultConfig 8) c5Busy) true =
      CloseResult.ctxErr := by
  refine ⟨?_, ?_, ?_, by decide, by decide⟩
  · intro s outs h
    simp [processBatch, h]
  · intro s k rest h
    simp [processBatch, h]
    exact processBatchGo_closed_errClosed k rest s
  · intro s
    rfl

/-- Witness for C5: after the closed signal a `ProcessBatch` returns
`ErrClosed`, and from the open initial state a send interrupted by the
closed signal after two completed sends returns `ErrClosed`. -/
theorem c5_close_semantics_witness :
    processBatch (run (initState defaultConfig 8) [Action.closeSignal]) [] =
      (run (initState defaultConfig 8) [Action.closeSignal],
        some PBErr.errClosed) ∧
    (processBatch (initState defaultConfig 8)
        (List.replicate 2 SendOutcome.sent ++ SendOutcome.poolClosed :: [])).2 =
      some PBErr.errClosed :=
  ⟨c5_close_semantics.1 (run (initState defaultConfig 8) [Action.closeSignal]) []
      (by decide),
   c5_close_semantics.2.1 (initState defaultConfig 8) 2 [] (by decide)⟩

/-- C6: in every `ProcessBatch` call, each event's encoding step precedes
its send — completed or blocked — in the observable step trace (the
`encodedFirst` scan accepts every trace), and in particular the event
whose send blocks on the full channel has already been encoded. -/
theorem c6_encode_before_block :
    (∀ (outs : List SendOutcome) (n : Nat),
      encodedFirst (processBatchTrace outs n) [] = true) ∧
    (∀ k n : Nat,
      PBStep.encodeStep (n + k) ∈
        processBatchTrace
          (List.replicate k SendOutcome.sent ++ [SendOutcome.poolClosed]) n) :=
  ⟨fun outs n => encodedFirst_processBatchTrace outs n [], blocked_event_encoded⟩

/-- C7 counterexample: after upscaling to three indexers under
`GOMAXPROCS = 12` and then lowering `GOMAXPROCS` to 4, the state between
the change and the next scaling tick has `IndexersActive = 3` while
`max(1, GOMAXPROCS/4) = 1`, so the bound does not hold at every
observable moment. -/
theorem c7_counterexample :
    ¬((run (initState c7Cfg 12) c7Trace).indexersActive ≤
        activeLimit (run (initState c7Cfg 12) c7Trace).gomaxprocs) ∧
    (run (initState c7Cfg 12) c7Trace).indexersActive = 3 ∧
    activeLimit (run (initState c7Cfg 12) c7Trace).gomaxprocs = 1 := by
  decide

/-- C7 (amended): at every observable moment `IndexersActive` is at most
`max(1, G/4)` for the largest `GOMAXPROCS` value `G` in effect so far in
the run; and at every scaling tick of a live pool with scaling enabled the
current limit is restored — `IndexersActive` ends the tick within
`max(1, GOMAXPROCS/4)`, and when the limit was exceeded the excess
indexers are stopped at that tick regardless of `ScaleDown.CoolDown`. -/
theorem c7_active_limit_amended :
    (∀ (cfg : Config) (g : Nat) (acts : List Action),
      (run (initState cfg g) acts).indexersActive ≤
        activeLimit (maxProcsSeen g acts)) ∧
    (∀ (s : IndexerState) (now : Nat) (p r : Bool),
      s.closed = false → s.cfg.scaling.disabled = false →
      (applyScaleTick s now p r).indexersActive ≤ activeLimit s.gomaxprocs ∧
      (activeLimit s.gomaxprocs < s.indexersActive →
        (applyScaleTick s now p r).indexersActive = activeLimit s.gomaxprocs ∧
        (applyScaleTick s now p r).indexersDestroyed =
          s.indexersDestroyed + (s.indexersActive - activeLimit s.gomaxprocs))) := by
  constructor
  · intro cfg g acts
    refine active_run acts (initState cfg g) g (Nat.le_refl g) ?_
    show 1 ≤ activeLimit g
    unfold activeLimit
    omega
  · intro s now p r hc hd
    refine ⟨scaleTick_enforces_limit s now p r hc hd, ?_⟩
    intro hlt
    constructor
    · simp [applyScaleTick, hc, hd, hlt]
    · simp [applyScaleTick, hc, hd, hlt]

/-- Witness for C7 (amended): ticking the over-limit concrete state stops
the two excess indexers at once, despite the one-second cooldown. -/
theorem c7_active_limit_amended_witness :
    (applyScaleTick (run (initState c7Cfg 12) c7Trace) 3 false false).indexersActive =
      activeLimit (run (initState c7Cfg 12) c7Trace).gomaxprocs :=
  ((c7_active_limit_amended.2 (run (initState c7Cfg 12) c7Trace) 3 false false
      (by decide) (by decide)).2 (by decide)).1

/-- C8: in every run, `BytesTotal` equals the sum of the post-compression
request body lengths the transport observed across all bulk requests
sent. -/
theorem c8_bytes_total (cfg : Config) (g : Nat) (acts : List Action) :
    (run (initState cfg g) acts).bytesTotal =
      ((run (initState cfg g) acts).transportPayloads).sum :=
  (inv_run acts (initState cfg g) (inv_init cfg g)).2.2

set_option maxRecDepth 4000 in
/-- C9: when 100 items fail with error type `error_type` and reasons
alternating `error_reason_even` / `error_reason_odd`, exactly two
"failed to index event" log lines are produced, one per distinct
`(errorType, errorReason)` key — both directly by the flush log limiter
and in a full run flushing those 100 items. -/
theorem c9_log_rate_limit :
    flushLogLines altItems =
      ["failed to index event (error_type): error_reason_even",
       "failed to index event (error_type): error_reason_odd"] ∧
    altItems.length = 100 ∧
    countFailed altItems = 100 ∧
    (run (initState defaultConfig 8) c9Trace).logLines =
      ["failed to index event (error_type): error_reason_even",
       "failed to index event (error_type): error_reason_odd"] := by
  decide

/-- C10: indexers stopped while closing change neither `IndexersCreated`
nor `IndexersDestroyed` (only scaling ticks do), and in the concrete run
that upscales from one indexer to two and then closes, the final stats
show `IndexersActive = 0`, `IndexersCreated = 1`,
`IndexersDestroyed = 0`. -/
theorem c10_close_counters :
    (∀ s : IndexerState,
      (applyAction s Action.closeStop).indexersCreated = s.indexersCreated ∧
      (applyAction s Action.closeStop).indexersDestroyed = s.indexersDestroyed ∧
      (applyAction s Action.closeSignal).indexersCreated = s.indexersCreated ∧
      (applyAction s Action.closeSignal).indexersDestroyed =
        s.indexersDestroyed) ∧
    stats (run (initState c7Cfg 12) c10Trace) =
      ⟨2, 0, 1, 0, 2, 0, 10, 10, 0, 1, 0⟩ := by
  constructor
  · intro s
    exact ⟨(closeStop_counters s).1, (closeStop_counters s).2, rfl, rfl⟩
  · decide

end ModelIndexer
